import Mathlib

/-!
Shallow embedding of `chatbothealth.py` (health chatbot: FAQ matcher over
TF-IDF similarity, keyword intent router, three live-data fetchers).

Modelling conventions:
* Python strings are Lean `String`; `str.lower` is modelled for ASCII
  (`lowerChar`), `str.strip` / `str.split` over the Python whitespace set.
* `str.replace(m, "")` is `removeMarker`: left-to-right removal of every
  non-overlapping occurrence of the two-character marker.
* The HTTP layer is an oracle value of type `HResp α`: `exc` stands for any
  exception raised during the request (timeout, connection error) and
  `ok status body` for a completed response; a body of `none` stands for a
  payload on which parsing (`r.json()` / `ET.fromstring`) raises.
* The scikit-learn TF-IDF pipeline is an oracle `sim : String → List ℚ`
  giving the row of cosine-similarity scores of the (lowercased, stripped)
  query against the stored questions; `numpy.argsort` is modelled as a
  stable ascending sort of indices (`argsort`), so `argsort[len-1]` is the
  lexicographically greatest pair (score, index).
* `random.choice(GREET_OUT)` takes an injected index `rng` modulo the pool.
-/

/-- Python whitespace characters (the set stripped/split on by `str.strip`
and `str.split` for ASCII text). -/
def isPySpace (c : Char) : Bool :=
  c = ' ' || c = '\t' || c = '\n' || c = '\x0d' || c = '\x0b' || c = '\x0c'

/-- ASCII model of Python `str.lower` on one character. -/
def lowerChar (c : Char) : Char :=
  match c with
  | 'A' => 'a' | 'B' => 'b' | 'C' => 'c' | 'D' => 'd' | 'E' => 'e' | 'F' => 'f'
  | 'G' => 'g' | 'H' => 'h' | 'I' => 'i' | 'J' => 'j' | 'K' => 'k' | 'L' => 'l'
  | 'M' => 'm' | 'N' => 'n' | 'O' => 'o' | 'P' => 'p' | 'Q' => 'q' | 'R' => 'r'
  | 'S' => 's' | 'T' => 't' | 'U' => 'u' | 'V' => 'v' | 'W' => 'w' | 'X' => 'x'
  | 'Y' => 'y' | 'Z' => 'z'
  | c => c

/-- Python `str.lower` (ASCII model). -/
def pyLower (s : String) : String := String.mk (s.data.map lowerChar)

/-- Python `str.strip`: drop leading and trailing whitespace. -/
def pyStrip (s : String) : String :=
  String.mk (((s.data.dropWhile isPySpace).reverse.dropWhile isPySpace).reverse)

/-- Helper for `pySplit`: `cur` holds the (reversed) token being read. -/
def pySplitAux : List Char → List Char → List String
  | [], cur => if cur.isEmpty then [] else [String.mk cur.reverse]
  | c :: rest, cur =>
    if isPySpace c then
      if cur.isEmpty then pySplitAux rest []
      else String.mk cur.reverse :: pySplitAux rest []
    else pySplitAux rest (c :: cur)

/-- Python `str.split()` with no argument: split on whitespace runs,
no empty tokens. -/
def pySplit (s : String) : List String := pySplitAux s.data []

/-- Python substring test `sub in s`. -/
def pyContains (sub s : String) : Bool :=
  s.data.tails.any (fun t => List.isPrefixOf sub.data t)

/-- Python `s.replace(m₁m₂, "")` for a two-character pattern: remove every
non-overlapping occurrence, scanning left to right. -/
def removeMarker (m₁ m₂ : Char) : List Char → List Char
  | [] => []
  | [c] => [c]
  | c₁ :: c₂ :: rest =>
    if c₁ = m₁ ∧ c₂ = m₂ then removeMarker m₁ m₂ rest
    else c₁ :: removeMarker m₁ m₂ (c₂ :: rest)

/-- `removeMarker` lifted to `String`. -/
def removeMarkerStr (m₁ m₂ : Char) (s : String) : String :=
  String.mk (removeMarker m₁ m₂ s.data)

/-- One source line of a question: `lines[i].replace("Q:", "").strip().lower()`. -/
def procQuestionLine (s : String) : String :=
  pyLower (pyStrip (removeMarkerStr 'Q' ':' s))

/-- One source line of an answer: `lines[i+1].replace("A:", "").strip()`. -/
def procAnswerLine (s : String) : String :=
  pyStrip (removeMarkerStr 'A' ':' s)

/-- The pairing loop of `load_faq`: `for i in range(0, len(lines), 2)`,
keeping a pair only when `i + 1 < len(lines)`. -/
def pairFaqs : List String → List (String × String)
  | q :: a :: rest => (procQuestionLine q, procAnswerLine a) :: pairFaqs rest
  | _ => []

/-- `load_faq`: strip every raw line, drop blank lines, then pair
consecutive lines into (question, answer). The file is given as its list
of raw lines. -/
def load_faq (fileLines : List String) : List (String × String) :=
  let lines := (fileLines.map pyStrip).filter (fun l => !l.isEmpty)
  pairFaqs lines

/-- Module-level `questions = [q for q, _ in faq_pairs]`. -/
def questions (faq_pairs : List (String × String)) : List String :=
  faq_pairs.map Prod.fst

/-- Module-level `answers = [a for _, a in faq_pairs]`. -/
def answers (faq_pairs : List (String × String)) : List String :=
  faq_pairs.map Prod.snd

/-- `GREET_IN` tuple from the source. -/
def GREET_IN : List String :=
  ["hello", "hi", "hey", "namaste", "whassup", "how are you?"]

/-- `GREET_OUT` tuple from the source. -/
def GREET_OUT : List String :=
  ["Hello!", "Hi there!", "Hey!", "Namaste!"]

/-- `maybe_greet`: scan the whitespace-split tokens of `txt`; on the first
token whose lowercase form is in `GREET_IN`, return a pick from
`GREET_OUT` (`random.choice` modelled by the injected index `rng`). -/
def maybe_greet (rng : Nat) (txt : String) : Option String :=
  match (pySplit txt).find? (fun w => GREET_IN.contains (pyLower w)) with
  | some _ => some (GREET_OUT.getD (rng % GREET_OUT.length) ("Hello!"))
  | none => none

/-- Outcome of one outbound HTTP call: `exc` is any exception raised by the
request itself (timeout, network error); `ok status body` a completed
response with its status code and a surrogate for the raw payload. -/
inductive HResp (α : Type) : Type where
  | exc : HResp α
  | ok : Nat → α → HResp α

/-- The JSON fields read by the COVID fetcher, each `none` when absent;
field values are carried in their rendered (f-string) form. -/
structure CovidJson : Type where
  todayCases : Option String
  todayDeaths : Option String
  cases : Option String
  updated : Option Nat

/-- `get_covid_update_india`. The body is `none` when `r.json()` raises;
`fmtTime` stands for `datetime.fromtimestamp(·).strftime(...)`. -/
def get_covid_update_india (resp : HResp (Option CovidJson))
    (fmtTime : Nat → String) : String :=
  match resp with
  | .exc => "Live COVID update is temporarily unavailable."
  | .ok status body =>
    if status ≠ 200 then "Live COVID update is temporarily unavailable."
    else match body with
    | none => "Live COVID update is temporarily unavailable."
    | some j =>
      let today_cases := j.todayCases.getD ("N/A")
      let today_deaths := j.todayDeaths.getD ("N/A")
      let total_cases := j.cases.getD ("N/A")
      let whenStr :=
        match j.updated with
        | some u => if u ≠ 0 then fmtTime (u / 1000) else "N/A"
        | none => "N/A"
      "ðŸ‡®ðŸ‡³ India COVID Update:\n" ++
      "â€¢ New cases today: " ++ today_cases ++ "\n" ++
      "â€¢ New deaths today: " ++ today_deaths ++ "\n" ++
      "â€¢ Total cases: " ++ total_cases ++ "\n" ++
      "(Last updated: " ++ whenStr ++ ")"

/-- An XML element as seen through `xml.etree.ElementTree`: a tag, an
optional text node, and the list of child elements in document order. -/
inductive XElem : Type where
  | node : String → Option String → List XElem → XElem

/-- Tag of an element. -/
def XElem.tag : XElem → String
  | .node t _ _ => t

/-- `.text` of an element (may be absent). -/
def XElem.text : XElem → Option String
  | .node _ s _ => s

/-- Child elements, document order. -/
def XElem.children : XElem → List XElem
  | .node _ _ cs => cs

/-- The loop body of the WHO fetcher for one `item` element:
`t = it.find("title").text if it.find("title") is not None else None`,
kept (as the bulleted line) only when `t` is truthy (non-`None`,
non-empty). -/
def titleBullet (it : XElem) : Option String :=
  match it.children.find? (fun c => c.tag == "title") with
  | some t =>
    match t.text with
    | some s => if s.isEmpty then none else some ("â€¢ " ++ s)
    | none => none
  | none => none

/-- `channel.findall("item")` after `root.find("channel")`; `[]` when the
channel element is missing. -/
def whoItems (root : XElem) : List XElem :=
  match root.children.find? (fun c => c.tag == "channel") with
  | some c => c.children.filter (fun e => e.tag == "item")
  | none => []

/-- `get_who_outbreak_headlines`. A document of `none` stands for a payload
on which `ET.fromstring` raises. -/
def get_who_outbreak_headlines (resp : HResp (Option XElem)) (limit : Nat) :
    String :=
  match resp with
  | .exc => "WHO outbreak feed is unavailable right now."
  | .ok status doc =>
    if status ≠ 200 then "WHO outbreak feed is unavailable right now."
    else match doc with
    | none => "WHO outbreak feed is unavailable right now."
    | some root =>
      let items := whoItems root
      if items.isEmpty then "No current outbreak items from WHO."
      else
        let titles := (items.take limit).filterMap titleBullet
        if titles.isEmpty then "No current outbreak items from WHO."
        else "ðŸ†˜ WHO Disease Outbreak News:\n" ++
          String.intercalate "\n" titles

/-- The JSON fields read from one CoWIN session record, each `none` when
absent; values carried in rendered form. -/
structure CowinSession : Type where
  name : Option String
  vaccine : Option String
  min_age_limit : Option String
  available_capacity_dose1 : Option String
  available_capacity_dose2 : Option String

/-- Rendering of one session line of the CoWIN fetcher. -/
def cowinLine (s : CowinSession) : String :=
  "â€¢ " ++ s.name.getD ("Center") ++ " | " ++
  s.vaccine.getD ("Vaccine") ++ " | Min Age: " ++
  s.min_age_limit.getD ("-") ++ " | Dose1: " ++
  s.available_capacity_dose1.getD ("-") ++ " | Dose2: " ++
  s.available_capacity_dose2.getD ("-")

/-- `get_cowin_slots_by_pin`. `fetch` stands for the parameterized GET;
a body of `none` stands for a payload on which `r.json()` raises, and
`some sessions` for `r.json().get("sessions", [])`. -/
def get_cowin_slots_by_pin
    (fetch : String → String → HResp (Option (List CowinSession)))
    (pincode : String) (date_ddmmyyyy : String) : String :=
  match fetch pincode date_ddmmyyyy with
  | .exc => "Vaccination slot service is temporarily unavailable."
  | .ok status body =>
    if status ≠ 200 then "Vaccination slot service is temporarily unavailable."
    else match body with
    | none => "Vaccination slot service is temporarily unavailable."
    | some data =>
      if data.isEmpty then "No vaccination slots found for the given PIN and date."
      else
        String.intercalate "\n"
          ("ðŸ’‰ Available Vaccination Slots:" ::
            (data.take 10).map cowinLine)

/-- One step of the stable insertion modelling `numpy.argsort` (ascending):
insert index `i` before the first already-placed index of strictly greater
value. Inserting indices in increasing order keeps ties in index order. -/
def sortInsert (v : Nat → ℚ) (i : Nat) : List Nat → List Nat
  | [] => [i]
  | j :: rest => if v i < v j then i :: j :: rest else j :: sortInsert v i rest

/-- Model of `sims.argsort()`: the indices `0 … n-1` sorted ascending by
value, ties in index order (stable sort). -/
def argsort (v : Nat → ℚ) (n : Nat) : List Nat :=
  (List.range n).foldl (fun acc i => sortInsert v i acc) []

/-- `faq_response`: TF-IDF similarity over the FAQ questions. `sim` is the
library oracle giving the cosine-similarity row of the processed query
against the stored questions; the source then takes
`idx = sims.argsort()[0][-1]`, `score = sims[0][idx]`, and answers with
`answers[idx]` unless `score < threshold`. The source's default threshold
is `0.35`; the router passes it explicitly here. -/
def faq_response (faq_pairs : List (String × String))
    (sim : String → List ℚ) (user_text : String) (threshold : ℚ) :
    Option String :=
  if (questions faq_pairs).isEmpty then none
  else
    let sims := sim (pyStrip (pyLower user_text))
    let idx := (argsort (fun k => sims.getD k 0) sims.length).getLastD 0
    let score := sims.getD idx 0
    if score < threshold then none
    else some ((answers faq_pairs).getD idx (""))

/-- Regex word character (`\w`, ASCII model): letter, digit or underscore. -/
def isWordChar (c : Char) : Bool := c.isAlphanum || c = '_'

/-- Word boundary `\b` holding just before position `i` of `s`, for a match
whose first character is a word character. -/
def boundaryBefore (s : List Char) (i : Nat) : Bool :=
  i == 0 || !isWordChar (s.getD (i - 1) ' ')

/-- Word boundary `\b` holding just after position `j - 1`, for a match
whose last character is a word character. -/
def boundaryAfter (s : List Char) (j : Nat) : Bool :=
  j == s.length || !isWordChar (s.getD j ' ')

/-- Does the pattern `\b(\d{6})\b` match at position `i` of `s`? -/
def pinAt (s : List Char) (i : Nat) : Bool :=
  i + 6 ≤ s.length &&
  (List.range 6).all (fun k => (s.getD (i + k) ' ').isDigit) &&
  boundaryBefore s i && boundaryAfter s (i + 6)

/-- `re.search(r"\b(\d{6})\b", text)`: leftmost match, as the matched
six-digit substring. -/
def searchPin (s : List Char) : Option String :=
  ((List.range s.length).find? (fun i => pinAt s i)).map
    (fun i => String.mk ((s.drop i).take 6))

/-- Does the pattern `\b(\d{2}-\d{2}-\d{4})\b` match at position `i`? -/
def dateAt (s : List Char) (i : Nat) : Bool :=
  i + 10 ≤ s.length &&
  (s.getD i ' ').isDigit && (s.getD (i + 1) ' ').isDigit &&
  s.getD (i + 2) ' ' == '-' &&
  (s.getD (i + 3) ' ').isDigit && (s.getD (i + 4) ' ').isDigit &&
  s.getD (i + 5) ' ' == '-' &&
  (List.range 4).all (fun k => (s.getD (i + 6 + k) ' ').isDigit) &&
  boundaryBefore s i && boundaryAfter s (i + 10)

/-- `re.search(r"\b(\d{2}-\d{2}-\d{4})\b", text)`: leftmost match, as the
matched `DD-MM-YYYY` substring. -/
def searchDate (s : List Char) : Option String :=
  ((List.range s.length).find? (fun i => dateAt s i)).map
    (fun i => String.mk ((s.drop i).take 10))

/-- The process-wide collaborators of `handle_user_message`: the loaded FAQ
corpus, the TF-IDF similarity oracle, the random pick for greetings, and
the three outbound HTTP oracles. -/
structure Env : Type where
  faq_pairs : List (String × String)
  sim : String → List ℚ
  rng : Nat
  covidResp : HResp (Option CovidJson)
  covidFmtTime : Nat → String
  whoResp : HResp (Option XElem)
  cowinFetch : String → String → HResp (Option (List CowinSession))

/-- The usage-hint string of the slot branch. -/
def slotUsageHint : String :=
  "To check vaccination slots, send: \x27Check slots PINCODE DATE\x27 (e.g., \x27Check slots 700001 31-08-2025\x27)."

/-- The final fallback apology string. -/
def fallbackApology : String :=
  "Sorry, I donâ€™t have that information yet. Please consult a healthcare professional."

/-- `handle_user_message`: the fixed-priority intent router. Empty input,
then greetings, then the COVID, WHO-outbreak and vaccination-slot keyword
branches, then the FAQ matcher (threshold `0.35 = 7/20`), then the
apology fallback. -/
def handle_user_message (e : Env) (user_msg : String) : String :=
  if user_msg.isEmpty then "Please type your question."
  else match maybe_greet e.rng user_msg with
  | some g => g ++ " Ask me about symptoms, prevention, vaccines, or outbreaks."
  | none =>
    let text := pyStrip (pyLower user_msg)
    if pyContains ("covid") text || pyContains ("corona") text then
      get_covid_update_india e.covidResp e.covidFmtTime
    else if pyContains ("who") text &&
        (pyContains ("outbreak") text || pyContains ("news") text ||
         pyContains ("alert") text) then
      get_who_outbreak_headlines e.whoResp 5
    else if (pyContains ("vaccination") text || pyContains ("vaccine") text) &&
        (pyContains ("slot") text || pyContains ("available") text ||
         pyContains ("pin") text) then
      match searchPin text.data, searchDate text.data with
      | some pin, some date => get_cowin_slots_by_pin e.cowinFetch pin date
      | _, _ => slotUsageHint
    else match faq_response e.faq_pairs e.sim text (7 / 20) with
    | some ans => ans
    | none => fallbackApology

/-! ### Properties of the stable argsort model -/

/-- Strict lexicographic order on (value, index): the order in which a
stable ascending argsort lays out the indices. -/
def lexLt (v : Nat → ℚ) (i j : Nat) : Prop :=
  v i < v j ∨ (v i = v j ∧ i < j)

theorem lexLt_le {v : Nat → ℚ} {i j : Nat} (h : lexLt v i j) : v i ≤ v j := by
  rcases h with h | ⟨h, _⟩
  · exact le_of_lt h
  · exact le_of_eq h

theorem sortInsert_perm (v : Nat → ℚ) (i : Nat) :
    ∀ l : List Nat, (sortInsert v i l).Perm (i :: l)
  | [] => List.Perm.refl _
  | j :: rest => by
    rw [sortInsert]
    split
    · exact List.Perm.refl _
    · exact ((sortInsert_perm v i rest).cons j).trans (List.Perm.swap i j rest)

theorem sortInsert_pairwise (v : Nat → ℚ) (i : Nat) :
    ∀ l : List Nat, l.Pairwise (lexLt v) → (∀ j ∈ l, j < i) →
      (sortInsert v i l).Pairwise (lexLt v)
  | [], _, _ => by simp [sortInsert]
  | j :: rest, hp, hlt => by
    rcases List.pairwise_cons.mp hp with ⟨hj, hrest⟩
    rw [sortInsert]
    split
    case isTrue h =>
      refine List.pairwise_cons.mpr ⟨?_, hp⟩
      intro x hx
      rcases List.mem_cons.mp hx with rfl | hx2
      · exact Or.inl h
      · exact Or.inl (lt_of_lt_of_le h (lexLt_le (hj x hx2)))
    case isFalse h =>
      refine List.pairwise_cons.mpr ⟨?_, ?_⟩
      · intro x hx
        have hx3 : x ∈ i :: rest := (sortInsert_perm v i rest).subset hx
        rcases List.mem_cons.mp hx3 with rfl | hx4
        · rcases lt_or_eq_of_le (le_of_not_lt h) with h2 | h2
          · exact Or.inl h2
          · exact Or.inr ⟨h2, hlt j (List.mem_cons_self j rest)⟩
        · exact hj x hx4
      · exact sortInsert_pairwise v i rest hrest
          (fun k hk => hlt k (List.mem_cons_of_mem j hk))

theorem argsort_succ (v : Nat → ℚ) (n : Nat) :
    argsort v (n + 1) = sortInsert v n (argsort v n) := by
  unfold argsort
  rw [List.range_succ, List.foldl_append]
  rfl

theorem mem_argsort (v : Nat → ℚ) : ∀ n j, j ∈ argsort v n ↔ j < n := by
  intro n
  induction n with
  | zero => intro j; simp [argsort]
  | succ n ih =>
    intro j
    rw [argsort_succ, (sortInsert_perm v n (argsort v n)).mem_iff,
      List.mem_cons]
    rw [ih j]
    omega

theorem argsort_pairwise (v : Nat → ℚ) : ∀ n, (argsort v n).Pairwise (lexLt v)
  | 0 => by simp [argsort]
  | n + 1 => by
    rw [argsort_succ]
    exact sortInsert_pairwise v n _ (argsort_pairwise v n)
      (fun j hj => (mem_argsort v n j).mp hj)

theorem getLastD_mem : ∀ (l : List Nat), l ≠ [] → ∀ d : Nat, l.getLastD d ∈ l
  | [], h, _ => absurd rfl h
  | [a], _, d => by simp
  | a :: b :: t, _, d => by
    rw [List.getLastD_cons]
    exact List.mem_cons_of_mem a (getLastD_mem (b :: t) (by simp) b)

theorem pairwise_rel_getLastD {R : Nat → Nat → Prop} :
    ∀ (l : List Nat), l.Pairwise R → ∀ x ∈ l, ∀ d : Nat,
      x = l.getLastD d ∨ R x (l.getLastD d)
  | [], _, x, hx, _ => absurd hx (List.not_mem_nil x)
  | [a], _, x, hx, d => by
    rcases List.mem_singleton.mp hx with rfl
    exact Or.inl rfl
  | a :: b :: t, hp, x, hx, d => by
    rcases List.pairwise_cons.mp hp with ⟨ha, htail⟩
    rw [List.getLastD_cons]
    rcases List.mem_cons.mp hx with h | hx2
    · subst h
      exact Or.inr (ha _ (getLastD_mem (b :: t) (by simp) _))
    · exact pairwise_rel_getLastD (b :: t) htail x hx2 _

theorem argsort_last_spec (v : Nat → ℚ) (n : Nat) (hn : 0 < n) :
    (argsort v n).getLastD 0 < n ∧
    (∀ j, j < n → v j ≤ v ((argsort v n).getLastD 0)) ∧
    (∀ j, j < n → v j = v ((argsort v n).getLastD 0) →
      j ≤ (argsort v n).getLastD 0) := by
  have hne : argsort v n ≠ [] := by
    intro h
    have h0 : 0 ∈ argsort v n := (mem_argsort v n 0).mpr hn
    rw [h] at h0
    exact absurd h0 (List.not_mem_nil 0)
  have hmem : (argsort v n).getLastD 0 ∈ argsort v n := getLastD_mem _ hne 0
  have hidxn : (argsort v n).getLastD 0 < n := (mem_argsort v n _).mp hmem
  refine ⟨hidxn, ?_, ?_⟩
  · intro j hj
    rcases pairwise_rel_getLastD (argsort v n) (argsort_pairwise v n) j
        ((mem_argsort v n j).mpr hj) 0 with h | h
    · exact le_of_eq (by rw [h])
    · exact lexLt_le h
  · intro j hj heq
    rcases pairwise_rel_getLastD (argsort v n) (argsort_pairwise v n) j
        ((mem_argsort v n j).mpr hj) 0 with h | h
    · exact le_of_eq h
    · rcases h with h | ⟨_, h⟩
      · exact absurd heq (ne_of_lt h)
      · exact le_of_lt h

/-! ### The selected score is the maximum similarity -/

/-- Maximum of a list of scores (`0` for the empty list, which
`faq_response` never reaches). -/
def maxSim : List ℚ → ℚ
  | [] => 0
  | [x] => x
  | x :: y :: t => max x (maxSim (y :: t))

theorem le_maxSim : ∀ (l : List ℚ) (x : ℚ), x ∈ l → x ≤ maxSim l
  | [], x, h => absurd h (List.not_mem_nil x)
  | [y], x, h => by
    rcases List.mem_singleton.mp h with rfl
    exact le_of_eq rfl
  | y :: z :: t, x, h => by
    rw [maxSim]
    rcases List.mem_cons.mp h with rfl | h2
    · exact le_max_left _ _
    · exact le_trans (le_maxSim (z :: t) x h2) (le_max_right _ _)

theorem maxSim_mem : ∀ (l : List ℚ), l ≠ [] → maxSim l ∈ l
  | [], h => absurd rfl h
  | [x], _ => List.mem_singleton.mpr rfl
  | x :: y :: t, _ => by
    rw [maxSim]
    rcases max_cases x (maxSim (y :: t)) with ⟨h, _⟩ | ⟨h, _⟩
    · rw [h]; exact List.mem_cons_self _ _
    · rw [h]; exact List.mem_cons_of_mem _ (maxSim_mem (y :: t) (by simp))

/-- The index picked by `sims.argsort()[0][-1]` carries the maximum
similarity score of the row. -/
theorem argsort_getD_eq_maxSim (sims : List ℚ) (h : sims ≠ []) :
    sims.getD ((argsort (fun k => sims.getD k 0) sims.length).getLastD 0) 0 =
      maxSim sims := by
  have hn : 0 < sims.length := List.length_pos.mpr h
  obtain ⟨hidxn, hmax, _⟩ :=
    argsort_last_spec (fun k => sims.getD k 0) sims.length hn
  apply le_antisymm
  · refine le_maxSim sims _ ?_
    rw [List.getD_eq_getElem sims 0 hidxn]
    exact List.getElem_mem hidxn
  · obtain ⟨j, hj, hjeq⟩ := List.getElem_of_mem (maxSim_mem sims h)
    calc maxSim sims = sims.getD j 0 := by
          rw [List.getD_eq_getElem sims 0 hj, hjeq]
      _ ≤ sims.getD _ 0 := hmax j hj

/-- Unfolding of `faq_response` on a non-empty corpus. -/
theorem faq_response_eq (faq_pairs : List (String × String))
    (sim : String → List ℚ) (q : String) (th : ℚ) (hne : faq_pairs ≠ []) :
    faq_response faq_pairs sim q th =
      (if (sim (pyStrip (pyLower q))).getD
          ((argsort (fun k => (sim (pyStrip (pyLower q))).getD k 0)
            (sim (pyStrip (pyLower q))).length).getLastD 0) 0 < th
       then none
       else some ((answers faq_pairs).getD
          ((argsort (fun k => (sim (pyStrip (pyLower q))).getD k 0)
            (sim (pyStrip (pyLower q))).length).getLastD 0) (""))) := by
  have hq : (questions faq_pairs).isEmpty = false := by
    rcases faq_pairs with _ | ⟨p, rest⟩
    · exact absurd rfl hne
    · rfl
  simp only [faq_response, hq, Bool.false_eq_true, if_false]

/-! ### Claims about the FAQ matcher -/

/-- C7: with an empty FAQ corpus, `faq_response` reports no match for every
query, threshold and similarity oracle; the early return fires before any
similarity is computed (the result does not depend on `sim`), and the
embedding is a total function, so no error is raised. -/
theorem faq_empty_corpus_no_match (sim : String → List ℚ)
    (user_text : String) (threshold : ℚ) :
    faq_response [] sim user_text threshold = none := rfl

/-- C1 counterexample: a query whose maximum cosine similarity is exactly
the threshold `0.35 = 7/20` is answered (the code tests
`score < threshold`, so an exact-threshold score matches); the claim
requires it to be treated as no-match. -/
theorem faq_threshold_boundary_cex :
    faq_response [("q", "a")] (fun _ => [7 / 20]) ("q") (7 / 20) =
      some ("a") ∧
    faq_response [("q", "a")] (fun _ => [7 / 20]) ("q") (7 / 20) ≠ none := by
  have h : faq_response [("q", "a")] (fun _ => [7 / 20]) ("q") (7 / 20) =
      some ("a") := by
    rw [faq_response_eq [("q", "a")] (fun _ => [7 / 20]) ("q") (7 / 20)
      (by simp)]
    norm_num [argsort, sortInsert, List.range_succ, List.range_zero, answers]
  refine ⟨h, ?_⟩
  rw [h]
  exact fun hc => Option.noConfusion hc

/-- C1 (amended): only a maximum similarity strictly below the threshold
triggers the no-match fallback; a maximum score at or above the threshold
(including exactly `0.35`) returns the answer stored at a maximum-scoring
index. -/
theorem faq_threshold_ge_matches (faq_pairs : List (String × String))
    (sim : String → List ℚ) (q : String) (th : ℚ)
    (hne : faq_pairs ≠ [])
    (hlen : (sim (pyStrip (pyLower q))).length =
      (questions faq_pairs).length) :
    (faq_response faq_pairs sim q th = none ↔
      maxSim (sim (pyStrip (pyLower q))) < th) ∧
    (th ≤ maxSim (sim (pyStrip (pyLower q))) →
      ∃ i, i < faq_pairs.length ∧
        (sim (pyStrip (pyLower q))).getD i 0 =
          maxSim (sim (pyStrip (pyLower q))) ∧
        faq_response faq_pairs sim q th =
          some ((answers faq_pairs).getD i (""))) := by
  have hqlen : (questions faq_pairs).length = faq_pairs.length := by
    simp [questions]
  have hsne : sim (pyStrip (pyLower q)) ≠ [] := by
    intro h0
    rw [h0] at hlen
    rcases faq_pairs with _ | ⟨p, rest⟩
    · exact absurd rfl hne
    · simp [questions] at hlen
  have hscore := argsort_getD_eq_maxSim (sim (pyStrip (pyLower q))) hsne
  have hn : 0 < (sim (pyStrip (pyLower q))).length := List.length_pos.mpr hsne
  obtain ⟨hidxn, hmax, _⟩ :=
    argsort_last_spec (fun k => (sim (pyStrip (pyLower q))).getD k 0)
      (sim (pyStrip (pyLower q))).length hn
  rw [faq_response_eq faq_pairs sim q th hne]
  by_cases h : (sim (pyStrip (pyLower q))).getD
      ((argsort (fun k => (sim (pyStrip (pyLower q))).getD k 0)
        (sim (pyStrip (pyLower q))).length).getLastD 0) 0 < th
  · rw [if_pos h]
    constructor
    · simp only [true_iff]
      rw [← hscore]
      exact h
    · intro hth
      rw [← hscore] at hth
      exact absurd h (not_lt.mpr hth)
  · rw [if_neg h]
    constructor
    · constructor
      · intro hcontra
        exact Option.noConfusion hcontra
      · intro hlt
        rw [← hscore] at hlt
        exact absurd hlt h
    · intro _
      refine ⟨(argsort (fun k => (sim (pyStrip (pyLower q))).getD k 0)
          (sim (pyStrip (pyLower q))).length).getLastD 0, ?_, hscore, rfl⟩
      exact lt_of_lt_of_eq hidxn (by rw [hlen, hqlen])

/-- Witness for `faq_threshold_ge_matches` at a one-question corpus whose
similarity row is exactly the threshold `7/20`. -/
theorem faq_threshold_ge_matches_witness :
    (faq_response [("q", "a")] (fun _ => [7 / 20]) ("q") (7 / 20) = none ↔
      maxSim [7 / 20] < 7 / 20) ∧
    (7 / 20 ≤ maxSim [(7 : ℚ) / 20] →
      ∃ i, i < ([(("q" : String), ("a" : String))]).length ∧
        ([(7 : ℚ) / 20]).getD i 0 = maxSim [(7 : ℚ) / 20] ∧
        faq_response [("q", "a")] (fun _ => [7 / 20]) ("q") (7 / 20) =
          some ((answers [("q", "a")]).getD i (""))) :=
  faq_threshold_ge_matches [("q", "a")] (fun _ => [7 / 20]) ("q") (7 / 20)
    (by simp) rfl

/-- C3 counterexample: with two stored questions tied for the maximum
score, the matcher answers with the answer at index 1 (the last tied
index), not the first-encountered index 0 as the claim states. The tie is
realizable: two identical stored questions score identically against any
query. -/
theorem faq_tie_break_cex :
    faq_response [("q", "a0"), ("q", "a1")] (fun _ => [1, 1]) ("q")
      (7 / 20) = some ("a1") ∧
    faq_response [("q", "a0"), ("q", "a1")] (fun _ => [1, 1]) ("q")
      (7 / 20) ≠ some ("a0") := by
  have h : faq_response [("q", "a0"), ("q", "a1")] (fun _ => [1, 1]) ("q")
      (7 / 20) = some ("a1") := by
    rw [faq_response_eq [("q", "a0"), ("q", "a1")] (fun _ => [1, 1]) ("q")
      (7 / 20) (by simp)]
    norm_num [argsort, sortInsert, List.range_succ, List.range_zero, answers]
  refine ⟨h, ?_⟩
  rw [h]
  intro hc
  have := Option.some.inj hc
  simp at this

/-- C3 (amended): under the stable model of `sims.argsort()[0][-1]`, the
selected index is the *greatest* index attaining the maximum similarity
(last-encountered tied maximum), and the returned answer is the one stored
at that index when the score clears the threshold. -/
theorem faq_tie_break_last_index (faq_pairs : List (String × String))
    (sim : String → List ℚ) (q : String) (th : ℚ)
    (hne : faq_pairs ≠ [])
    (hlen : (sim (pyStrip (pyLower q))).length =
      (questions faq_pairs).length) :
    ∃ i, i < faq_pairs.length ∧
      (∀ j, j < (sim (pyStrip (pyLower q))).length →
        (sim (pyStrip (pyLower q))).getD j 0 ≤
          (sim (pyStrip (pyLower q))).getD i 0) ∧
      (∀ j, j < (sim (pyStrip (pyLower q))).length →
        (sim (pyStrip (pyLower q))).getD j 0 =
          (sim (pyStrip (pyLower q))).getD i 0 → j ≤ i) ∧
      ((sim (pyStrip (pyLower q))).getD i 0 < th →
        faq_response faq_pairs sim q th = none) ∧
      (¬ (sim (pyStrip (pyLower q))).getD i 0 < th →
        faq_response faq_pairs sim q th =
          some ((answers faq_pairs).getD i (""))) := by
  have hqlen : (questions faq_pairs).length = faq_pairs.length := by
    simp [questions]
  have hsne : sim (pyStrip (pyLower q)) ≠ [] := by
    intro h0
    rw [h0] at hlen
    rcases faq_pairs with _ | ⟨p, rest⟩
    · exact absurd rfl hne
    · simp [questions] at hlen
  have hn : 0 < (sim (pyStrip (pyLower q))).length := List.length_pos.mpr hsne
  obtain ⟨hidxn, hmax, hgreatest⟩ :=
    argsort_last_spec (fun k => (sim (pyStrip (pyLower q))).getD k 0)
      (sim (pyStrip (pyLower q))).length hn
  refine ⟨(argsort (fun k => (sim (pyStrip (pyLower q))).getD k 0)
      (sim (pyStrip (pyLower q))).length).getLastD 0,
    lt_of_lt_of_eq hidxn (by rw [hlen, hqlen]), hmax, hgreatest, ?_, ?_⟩
  · intro hlt
    rw [faq_response_eq faq_pairs sim q th hne, if_pos hlt]
  · intro hge
    rw [faq_response_eq faq_pairs sim q th hne, if_neg hge]

/-- Witness for `faq_tie_break_last_index` at the two-way tie `[1, 1]`. -/
theorem faq_tie_break_last_index_witness :
    ∃ i, i < ([(("q" : String), ("a0" : String)), ("q", "a1")]).length ∧
      (∀ j, j < ([(1 : ℚ), 1]).length →
        ([(1 : ℚ), 1]).getD j 0 ≤ ([(1 : ℚ), 1]).getD i 0) ∧
      (∀ j, j < ([(1 : ℚ), 1]).length →
        ([(1 : ℚ), 1]).getD j 0 = ([(1 : ℚ), 1]).getD i 0 → j ≤ i) ∧
      (([(1 : ℚ), 1]).getD i 0 < 7 / 20 →
        faq_response [("q", "a0"), ("q", "a1")] (fun _ => [1, 1]) ("q")
          (7 / 20) = none) ∧
      (¬ ([(1 : ℚ), 1]).getD i 0 < 7 / 20 →
        faq_response [("q", "a0"), ("q", "a1")] (fun _ => [1, 1]) ("q")
          (7 / 20) =
          some ((answers [("q", "a0"), ("q", "a1")]).getD i (""))) :=
  faq_tie_break_last_index [("q", "a0"), ("q", "a1")] (fun _ => [1, 1])
    ("q") (7 / 20) (by simp) rfl

/-- C6: the questions and answers sequences always have the same length
(both are projections of the loaded pair list), and every matched reply is
the answer stored at an index whose question attains the maximum
similarity score. -/
theorem faq_answer_index_aligned (faq_pairs : List (String × String))
    (sim : String → List ℚ) (q : String) (th : ℚ)
    (hlen : (sim (pyStrip (pyLower q))).length =
      (questions faq_pairs).length) :
    (questions faq_pairs).length = (answers faq_pairs).length ∧
    ∀ a, faq_response faq_pairs sim q th = some a →
      ∃ i, i < (questions faq_pairs).length ∧
        a = (answers faq_pairs).getD i ("") ∧
        ∀ j, j < (sim (pyStrip (pyLower q))).length →
          (sim (pyStrip (pyLower q))).getD j 0 ≤
            (sim (pyStrip (pyLower q))).getD i 0 := by
  constructor
  · simp [questions, answers]
  · intro a ha
    have hne : faq_pairs ≠ [] := by
      intro h0
      rw [h0] at ha
      simp [faq_response, questions] at ha
    have hsne : sim (pyStrip (pyLower q)) ≠ [] := by
      intro h0
      rw [h0] at hlen
      rcases faq_pairs with _ | ⟨p, rest⟩
      · exact absurd rfl hne
      · simp [questions] at hlen
    have hn : 0 < (sim (pyStrip (pyLower q))).length :=
      List.length_pos.mpr hsne
    obtain ⟨hidxn, hmax, _⟩ :=
      argsort_last_spec (fun k => (sim (pyStrip (pyLower q))).getD k 0)
        (sim (pyStrip (pyLower q))).length hn
    rw [faq_response_eq faq_pairs sim q th hne] at ha
    by_cases hlt : (sim (pyStrip (pyLower q))).getD
        ((argsort (fun k => (sim (pyStrip (pyLower q))).getD k 0)
          (sim (pyStrip (pyLower q))).length).getLastD 0) 0 < th
    · rw [if_pos hlt] at ha
      exact absurd ha (by simp)
    · rw [if_neg hlt] at ha
      refine ⟨(argsort (fun k => (sim (pyStrip (pyLower q))).getD k 0)
          (sim (pyStrip (pyLower q))).length).getLastD 0,
        lt_of_lt_of_eq hidxn hlen, ?_, hmax⟩
      exact (Option.some.inj ha).symm

/-- Witness for `faq_answer_index_aligned` at a one-question corpus. -/
theorem faq_answer_index_aligned_witness :
    (questions [(("q" : String), ("a" : String))]).length =
      (answers [(("q" : String), ("a" : String))]).length ∧
    ∀ a, faq_response [("q", "a")] (fun _ => [1]) ("q") (7 / 20) = some a →
      ∃ i, i < (questions [(("q" : String), ("a" : String))]).length ∧
        a = (answers [(("q" : String), ("a" : String))]).getD i ("") ∧
        ∀ j, j < ([(1 : ℚ)]).length →
          ([(1 : ℚ)]).getD j 0 ≤ ([(1 : ℚ)]).getD i 0 :=
  faq_answer_index_aligned [("q", "a")] (fun _ => [1]) ("q") (7 / 20) rfl

/-! ### Claims about the FAQ loader -/

/-- C4 counterexample: on the well-formed two-line source
`["Q: what is Q:?", "A: ans"]` the loader removes the marker `Q:` inside
the question body as well (Python `str.replace` removes every occurrence,
not only a leading prefix), so the stored question is `"what is ?"` and not
the prefix-stripped, lowercased line `"what is q:?"` the claim requires. -/
theorem load_faq_marker_cex :
    load_faq ["Q: what is Q:?", "A: ans"] = [("what is ?", "ans")] ∧
    load_faq ["Q: what is Q:?", "A: ans"] ≠ [("what is q:?", "ans")] := by
  constructor
  · rfl
  · decide

/-- C4 (amended): for every source whose stripped non-blank lines are
exactly the flattened question/answer line pairs `ps`, `load_faq` returns
exactly `ps.length` pairs in source order; each question is its line with
*every* occurrence of `Q:` removed, then stripped and lowercased, and each
answer its line with *every* occurrence of `A:` removed and stripped,
case preserved. -/
theorem load_faq_pairs_spec (src : List String)
    (ps : List (String × String))
    (h : (src.map pyStrip).filter (fun l => !l.isEmpty) =
      (ps.map (fun p => [p.1, p.2])).flatten) :
    load_faq src =
      ps.map (fun p => (procQuestionLine p.1, procAnswerLine p.2)) ∧
    (load_faq src).length = ps.length := by
  have hmain : ∀ t : List (String × String),
      pairFaqs ((t.map (fun p => [p.1, p.2])).flatten) =
        t.map (fun p => (procQuestionLine p.1, procAnswerLine p.2)) := by
    intro t
    induction t with
    | nil => rfl
    | cons p rest ih => simp [pairFaqs, ih]
  have h1 : load_faq src =
      ps.map (fun p => (procQuestionLine p.1, procAnswerLine p.2)) := by
    show pairFaqs ((src.map pyStrip).filter (fun l => !l.isEmpty)) = _
    rw [h]
    exact hmain ps
  refine ⟨h1, ?_⟩
  rw [h1, List.length_map]

/-- Witness for `load_faq_pairs_spec` on a two-pair source with `Q:`/`A:`
prefixes and a blank line. -/
theorem load_faq_pairs_spec_witness :
    load_faq ["Q: What is flu?", "A: A viral infection.", "",
        "How to stay safe?", "Wash hands."] =
      [(procQuestionLine ("Q: What is flu?"),
        procAnswerLine ("A: A viral infection.")),
       (procQuestionLine ("How to stay safe?"),
        procAnswerLine ("Wash hands."))] ∧
    (load_faq ["Q: What is flu?", "A: A viral infection.", "",
        "How to stay safe?", "Wash hands."]).length = 2 :=
  load_faq_pairs_spec
    ["Q: What is flu?", "A: A viral infection.", "",
      "How to stay safe?", "Wash hands."]
    [("Q: What is flu?", "A: A viral infection."),
      ("How to stay safe?", "Wash hands.")]
    (by rfl)

/-! ### Claims about the greeting branch and routing priority -/

theorem lowerChar_eq_space (c : Char) (h : lowerChar c = ' ') : c = ' ' := by
  unfold lowerChar at h
  split at h
  all_goals first | exact h | exact absurd h (by decide)

/-- Tokens produced by `pySplit` contain no whitespace character. -/
theorem pySplitAux_no_space :
    ∀ (s cur : List Char), (∀ c ∈ cur, isPySpace c = false) →
      ∀ w ∈ pySplitAux s cur, ∀ c ∈ w.data, isPySpace c = false
  | [], cur, hcur, w, hw, c, hc => by
    rw [pySplitAux] at hw
    split at hw
    · exact absurd hw (List.not_mem_nil w)
    · rcases List.mem_singleton.mp hw with rfl
      exact hcur c (List.mem_reverse.mp hc)
  | ch :: rest, cur, hcur, w, hw, c, hc => by
    rw [pySplitAux] at hw
    split at hw
    case isTrue hsp =>
      split at hw
      · exact pySplitAux_no_space rest [] (by simp) w hw c hc
      · rcases List.mem_cons.mp hw with heq | hw2
        · subst heq
          exact hcur c (List.mem_reverse.mp hc)
        · exact pySplitAux_no_space rest [] (by simp) w hw2 c hc
    case isFalse hsp =>
      refine pySplitAux_no_space rest (ch :: cur) ?_ w hw c hc
      intro d hd
      rcases List.mem_cons.mp hd with heq | hd2
      · subst heq
        simpa using hsp
      · exact hcur d hd2

theorem list_any_congr :
    ∀ (l : List String) (p r : String → Bool),
      (∀ x ∈ l, p x = r x) → l.any p = l.any r
  | [], _, _, _ => rfl
  | x :: t, p, r, h => by
    simp only [List.any_cons]
    rw [h x (List.mem_cons_self x t),
      list_any_congr t p r (fun y hy => h y (List.mem_cons_of_mem x hy))]

/-- C10: `maybe_greet` compares each whitespace-delimited token
(lowercased) with `GREET_IN`, so the multi-word entry `"how are you?"` can
never be matched: a token never contains a space. The greeting branch
fires exactly when some token lowercases to one of the five single-word
greetings. -/
theorem greeting_single_tokens_only (rng : Nat) (txt : String) :
    (maybe_greet rng txt).isSome =
      (pySplit txt).any (fun w =>
        (["hello", "hi", "hey", "namaste", "whassup"] : List String).contains
          (pyLower w)) := by
  have htok : ∀ w ∈ pySplit txt, ∀ c ∈ w.data, isPySpace c = false :=
    pySplitAux_no_space txt.data [] (by simp)
  have hp : ∀ w ∈ pySplit txt,
      GREET_IN.contains (pyLower w) =
        (["hello", "hi", "hey", "namaste", "whassup"] : List String).contains
          (pyLower w) := by
    intro w hw
    have hne : pyLower w ≠ ("how are you?") := by
      intro he
      have hsp : (' ' : Char) ∈ (pyLower w).data := by
        rw [he]; decide
      obtain ⟨c, hc, hlc⟩ := List.mem_map.mp hsp
      have hcsp := lowerChar_eq_space c hlc
      subst hcsp
      have := htok w hw ' ' hc
      simp [isPySpace] at this
    show GREET_IN.elem (pyLower w) =
      List.elem (pyLower w) ["hello", "hi", "hey", "namaste", "whassup"]
    rw [Bool.eq_iff_iff, List.elem_iff, List.elem_iff]
    constructor
    · intro hmem
      simp only [GREET_IN, List.mem_cons, List.not_mem_nil, or_false] at hmem
      rcases hmem with h | h | h | h | h | h
      · simp [h]
      · simp [h]
      · simp [h]
      · simp [h]
      · simp [h]
      · exact absurd h hne
    · intro hmem
      simp only [List.mem_cons, List.not_mem_nil, or_false] at hmem
      simp only [GREET_IN, List.mem_cons]
      tauto
  rw [maybe_greet]
  cases hfind : (pySplit txt).find? (fun w => GREET_IN.contains (pyLower w))
    with
  | none =>
    have hnone : ∀ w ∈ pySplit txt,
        ¬ GREET_IN.contains (pyLower w) = true := by
      intro w hw
      simpa using List.find?_eq_none.mp hfind w hw
    have : (pySplit txt).any (fun w =>
        (["hello", "hi", "hey", "namaste", "whassup"] : List String).contains
          (pyLower w)) = false := by
      rw [← list_any_congr (pySplit txt) _ _ hp]
      rw [List.any_eq_false]
      intro x hx
      simpa using hnone x hx
    rw [this]
    rfl
  | some y =>
    have hy := List.find?_some hfind
    have hmem := List.mem_of_find?_eq_some hfind
    have : (pySplit txt).any (fun w =>
        (["hello", "hi", "hey", "namaste", "whassup"] : List String).contains
          (pyLower w)) = true := by
      rw [← list_any_congr (pySplit txt) _ _ hp]
      rw [List.any_eq_true]
      exact ⟨y, hmem, hy⟩
    rw [this]
    rfl

/-- C5: a message with a whitespace-delimited greeting token resolves via
the greeting branch even when it also contains "covid": the greeting check
runs first, and the reply is the greeting pick plus the fixed guidance
suffix; the COVID fetcher is never consulted (the reply does not depend on
`e.covidResp`). -/
theorem greeting_before_covid (e : Env) (msg : String)
    (hg : (pySplit msg).any (fun w => GREET_IN.contains (pyLower w)) = true)
    (hcovid : pyContains ("covid") (pyStrip (pyLower msg)) = true) :
    handle_user_message e msg =
      GREET_OUT.getD (e.rng % GREET_OUT.length) ("Hello!") ++
        " Ask me about symptoms, prevention, vaccines, or outbreaks." := by
  have hex : ∃ x, x ∈ pySplit msg ∧
      GREET_IN.contains (pyLower x) = true := by
    simpa using List.any_eq_true.mp hg
  obtain ⟨x, hx, hpx⟩ := hex
  have hempty : msg.isEmpty = false := by
    cases hmsg : msg.isEmpty
    · rfl
    · exfalso
      have h0 : msg = "" := (String.isEmpty_iff msg).mp hmsg
      subst h0
      simp [pySplit, pySplitAux] at hg
  have hmg : maybe_greet e.rng msg =
      some (GREET_OUT.getD (e.rng % GREET_OUT.length) ("Hello!")) := by
    rw [maybe_greet]
    cases hfind : (pySplit msg).find?
        (fun w => GREET_IN.contains (pyLower w)) with
    | none =>
      exfalso
      have hno := List.find?_eq_none.mp hfind x hx
      simp only [hpx] at hno
      exact hno trivial
    | some y => rfl
  unfold handle_user_message
  rw [hempty]
  simp only [Bool.false_eq_true, if_false]
  rw [hmg]

/-- Witness for `greeting_before_covid` at the message `"hi covid"`. -/
theorem greeting_before_covid_witness :
    handle_user_message
      { faq_pairs := [], sim := fun _ => [], rng := 0, covidResp := .exc,
        covidFmtTime := fun _ => "", whoResp := .exc,
        cowinFetch := fun _ _ => .exc } ("hi covid") =
      GREET_OUT.getD (0 % GREET_OUT.length) ("Hello!") ++
        " Ask me about symptoms, prevention, vaccines, or outbreaks." :=
  greeting_before_covid
    { faq_pairs := [], sim := fun _ => [], rng := 0, covidResp := .exc,
      covidFmtTime := fun _ => "", whoResp := .exc,
      cowinFetch := fun _ _ => .exc } ("hi covid") (by rfl) (by rfl)

/-! ### Claims about the live-data fetchers -/

/-- C8: each of the three fetchers maps every failure outcome — an
exception during the request (timeout, network error), a non-success HTTP
status, or a payload on which parsing raises — to its fixed fallback
string; the embeddings are total functions, so no exception reaches the
caller. -/
theorem fetchers_fail_safe (status : Nat) (hs : status ≠ 200)
    (cbody : Option CovidJson) (ft : Nat → String) (wbody : Option XElem)
    (limit : Nat) (sbody : Option (List CowinSession)) (pin date : String) :
    (get_covid_update_india .exc ft =
        "Live COVID update is temporarily unavailable." ∧
      get_covid_update_india (.ok status cbody) ft =
        "Live COVID update is temporarily unavailable." ∧
      get_covid_update_india (.ok 200 none) ft =
        "Live COVID update is temporarily unavailable.") ∧
    (get_who_outbreak_headlines .exc limit =
        "WHO outbreak feed is unavailable right now." ∧
      get_who_outbreak_headlines (.ok status wbody) limit =
        "WHO outbreak feed is unavailable right now." ∧
      get_who_outbreak_headlines (.ok 200 none) limit =
        "WHO outbreak feed is unavailable right now.") ∧
    (get_cowin_slots_by_pin (fun _ _ => .exc) pin date =
        "Vaccination slot service is temporarily unavailable." ∧
      get_cowin_slots_by_pin (fun _ _ => .ok status sbody) pin date =
        "Vaccination slot service is temporarily unavailable." ∧
      get_cowin_slots_by_pin (fun _ _ => .ok 200 none) pin date =
        "Vaccination slot service is temporarily unavailable.") := by
  refine ⟨⟨rfl, ?_, rfl⟩, ⟨rfl, ?_, rfl⟩, ⟨rfl, ?_, rfl⟩⟩
  · simp only [get_covid_update_india]
    rw [if_pos hs]
  · simp only [get_who_outbreak_headlines]
    rw [if_pos hs]
  · simp only [get_cowin_slots_by_pin]
    rw [if_pos hs]

/-- Witness for `fetchers_fail_safe` at HTTP status 500. -/
theorem fetchers_fail_safe_witness :
    (get_covid_update_india .exc (fun _ => "") =
        "Live COVID update is temporarily unavailable." ∧
      get_covid_update_india (.ok 500 none) (fun _ => "") =
        "Live COVID update is temporarily unavailable." ∧
      get_covid_update_india (.ok 200 none) (fun _ => "") =
        "Live COVID update is temporarily unavailable.") ∧
    (get_who_outbreak_headlines .exc 5 =
        "WHO outbreak feed is unavailable right now." ∧
      get_who_outbreak_headlines (.ok 500 none) 5 =
        "WHO outbreak feed is unavailable right now." ∧
      get_who_outbreak_headlines (.ok 200 none) 5 =
        "WHO outbreak feed is unavailable right now.") ∧
    (get_cowin_slots_by_pin (fun _ _ => .exc) ("700001") ("31-08-2025") =
        "Vaccination slot service is temporarily unavailable." ∧
      get_cowin_slots_by_pin (fun _ _ => .ok 500 none) ("700001")
          ("31-08-2025") =
        "Vaccination slot service is temporarily unavailable." ∧
      get_cowin_slots_by_pin (fun _ _ => .ok 200 none) ("700001")
          ("31-08-2025") =
        "Vaccination slot service is temporarily unavailable.") :=
  fetchers_fail_safe 500 (by decide) none (fun _ => "") none 5 none
    ("700001") ("31-08-2025")

/-- C9 counterexample: a malformed (unparseable) feed payload is reported
with the `"unavailable"` string of the `except` branch, not with the fixed
`"no items"` message the claim requires for every malformed feed. -/
theorem who_malformed_feed_cex :
    get_who_outbreak_headlines (.ok 200 none) 5 =
      "WHO outbreak feed is unavailable right now." ∧
    get_who_outbreak_headlines (.ok 200 none) 5 ≠
      "No current outbreak items from WHO." := by
  constructor
  · rfl
  · decide

/-- C9 (amended): on a parsed document the fetcher renders at most 5 item
titles, taken in document order (a sublist of all bulleted titles), each as
a bulleted line under the fixed header; an empty item list — or one whose
first 5 items carry no usable title — yields the fixed "no items" message;
an unparseable payload instead yields the "unavailable" string. -/
theorem who_headlines_spec (root : XElem) :
    List.Sublist (((whoItems root).take 5).filterMap titleBullet)
      ((whoItems root).filterMap titleBullet) ∧
    (((whoItems root).take 5).filterMap titleBullet).length ≤ 5 ∧
    get_who_outbreak_headlines (.ok 200 (some root)) 5 =
      (if (whoItems root).isEmpty then "No current outbreak items from WHO."
       else if (((whoItems root).take 5).filterMap titleBullet).isEmpty then
         "No current outbreak items from WHO."
       else
         "ðŸ†˜ WHO Disease Outbreak News:\n" ++
           String.intercalate "\n"
             (((whoItems root).take 5).filterMap titleBullet)) ∧
    get_who_outbreak_headlines (.ok 200 none) 5 =
      "WHO outbreak feed is unavailable right now." := by
  refine ⟨(List.take_sublist 5 (whoItems root)).filterMap titleBullet,
    le_trans (List.length_filterMap_le titleBullet ((whoItems root).take 5))
      (List.length_take_le 5 (whoItems root)), ?_, rfl⟩
  rfl

/-! ### The slot-lookup routing bug -/

/-- An environment with an empty FAQ corpus and all fetchers failing. -/
def idleEnv : Env :=
  { faq_pairs := [], sim := fun _ => [], rng := 0, covidResp := .exc,
    covidFmtTime := fun _ => "", whoResp := .exc,
    cowinFetch := fun _ _ => .exc }

/-- An environment whose slot fetcher echoes the pin and date it receives
inside the rendered session line, making the extracted arguments visible
in the reply. -/
def echoEnv : Env :=
  { idleEnv with
    cowinFetch := fun p d =>
      .ok 200 (some [CowinSession.mk (some p) (some d) none none none]) }

/-- C2 / code bug. The code's own usage hint instructs the user to send
`Check slots PINCODE DATE`, and the claim says `Check slots 700001
31-08-2025` extracts the postal code and date and that `Check slots`
returns the usage hint. But the slot branch is guarded by the text
containing "vaccination" or "vaccine", which those messages lack, so the
router sends both to the FAQ fallback instead (first two conjuncts; third:
the apology is not the usage hint). Adding the word "vaccine" does make
the router extract `700001` and `31-08-2025` and call the slot fetcher
with them — the echoed pin and date appear in the reply (last conjunct). -/
theorem slot_hint_route_bug :
    handle_user_message idleEnv ("Check slots 700001 31-08-2025") =
      fallbackApology ∧
    handle_user_message idleEnv ("Check slots") = fallbackApology ∧
    fallbackApology ≠ slotUsageHint ∧
    handle_user_message echoEnv ("Check vaccine slots 700001 31-08-2025") =
      "ðŸ’‰ Available Vaccination Slots:\nâ€¢ 700001 | 31-08-2025 | Min Age: - | Dose1: - | Dose2: -" := by
  refine ⟨rfl, rfl, ?_, rfl⟩
  decide
